import Mathlib

/-!
Verification of `convert_onnx_to_tflite.py`, a one-shot linear pipeline:
load an ONNX model, monkey-patch the TensorFlow namespace, translate to a
SavedModel directory, then convert and write a single `.tflite` artifact.

The script is embedded shallowly: the outcomes of the third-party library
calls (`onnx.load`, `prepare`, `export_graph`, `converter.convert`) are an
environment `Env`; the filesystem state touched by the script (the
intermediate export directory and the output file) is `FSState`; the
TensorFlow top-level attribute namespace is a map `String → Option String`;
and the run records an event trace so that temporal claims (call made or
not made, ordering) can be stated.
-/

namespace ConvertOnnxToTflite

/-- File contents, modelled as a list of byte values. -/
abbrev Bytes := List Nat

/-- Hard-coded input path of the ONNX model (line 19 of the script). -/
def inputPath : String := "app/src/main/cpp/llama.cpp/build/gemma3nlu.onnx"

/-- Hard-coded intermediate SavedModel export directory (line 23). -/
def exportDirPath : String := "app/src/main/assets/models/gemma3nlu_saved_model"

/-- Hard-coded output path of the `.tflite` artifact (line 34). -/
def outPath : String := "app/src/main/assets/models/gemma3nlu.tflite"

/-- The canonical `tf.math` submodule function named `n`. -/
def tfMath (n : String) : String := "tf.math." ++ n

/-- The five monkey-patch assignments of the shim block (lines 7-11), in
source order: `tf.ceil = tf.math.ceil`, `tf.floor = tf.math.floor`,
`tf.abs = tf.math.abs`, `tf.sin = tf.math.sin`, `tf.cos = tf.math.cos`. -/
def shimAssignments : List (String × String) :=
  [("ceil", tfMath "ceil"),
   ("floor", tfMath "floor"),
   ("abs", tfMath "abs"),
   ("sin", tfMath "sin"),
   ("cos", tfMath "cos")]

/-- Python attribute assignment `tf.<name> = <val>` on a namespace map. -/
def setAttrF (ns : String → Option String) (name val : String) :
    String → Option String :=
  fun n => if n = name then some val else ns n

/-- Effect of the whole shim block on the TensorFlow top-level namespace:
the five assignments applied in source order. -/
def applyShim (base : String → Option String) : String → Option String :=
  shimAssignments.foldl (fun ns p => setAttrF ns p.1 p.2) base

/-- Observable events of a run, in the order the script performs them. -/
inductive Event where
  | setAttr (name target : String)
  | importOnnxTf
  | loadCall (path : String)
  | prepareCall (strict : Bool)
  | existsCheck (path : String) (result : Bool)
  | rmtreeCall (path : String)
  | exportCall (path : String)
  | fromSavedModelCall (path : String)
  | convertCall
  | openWrite (path : String)
  | printMsg (msg : String)
  deriving DecidableEq

/-- Trace of the shim block: the five attribute assignments. -/
def shimTrace : List Event :=
  shimAssignments.map (fun p => Event.setAttr p.1 p.2)

/-- The filesystem locations the script touches: the intermediate export
directory (as an optional list of contained files) and the output file. -/
structure FSState where
  exportDir : Option (List (String × Bytes))
  outputFile : Option Bytes
  deriving DecidableEq

/-- Environment: the behaviour of the third-party library calls in this
run, plus the TensorFlow namespace as found before the shim. -/
structure Env where
  tfBase : String → Option String
  loadOk : Bool
  prepareOk : Bool
  exportOk : Bool
  exportBundle : List (String × Bytes)
  convertOk : Bool
  convertBytes : Bytes

/-- Result of a run: event trace, final TensorFlow namespace, final
filesystem state, and the process exit code. -/
structure RunResult where
  trace : List Event
  tfAttrs : String → Option String
  fs : FSState
  exitCode : Nat

/-- The confirmation message printed on line 38. -/
def successMsg : String := "✅ Wrote TFLite model to " ++ outPath

/-- The script, top to bottom. Each third-party call either succeeds (per
`env`) or raises; an unhandled exception terminates the process with exit
code 1 (the Python default) and no further statement runs. -/
def run (env : Env) (fs0 : FSState) : RunResult :=
  -- lines 7-11: shim block, then line 15: import of the onnx-tf backend
  let tfns := applyShim env.tfBase
  -- line 19: onnx.load on the hard-coded input path
  let t0 := shimTrace ++ [Event.importOnnxTf, Event.loadCall inputPath]
  if env.loadOk = true then
    -- line 22: prepare(onnx_model, strict=False)
    let t1 := t0 ++ [Event.prepareCall false]
    if env.prepareOk = true then
      -- lines 24-26: existence check, conditional rmtree, export_graph
      let dirExists := fs0.exportDir.isSome
      let t2 := t1 ++ [Event.existsCheck exportDirPath dirExists] ++
        (if dirExists then [Event.rmtreeCall exportDirPath] else [])
      let fs1 : FSState :=
        if dirExists then { fs0 with exportDir := none } else fs0
      let t3 := t2 ++ [Event.exportCall exportDirPath]
      if env.exportOk = true then
        let fs2 : FSState := { fs1 with exportDir := some env.exportBundle }
        -- lines 29-31: from_saved_model, optimizations, convert
        let t4 := t3 ++ [Event.fromSavedModelCall exportDirPath, Event.convertCall]
        if env.convertOk = true then
          -- lines 34-38: open the output file, write the bytes, print
          let fs3 : FSState := { fs2 with outputFile := some env.convertBytes }
          ⟨t4 ++ [Event.openWrite outPath, Event.printMsg successMsg], tfns, fs3, 0⟩
        else ⟨t4, tfns, fs2, 1⟩
      else ⟨t3, tfns, fs1, 1⟩
    else ⟨t1, tfns, fs0, 1⟩
  else ⟨t0, tfns, fs0, 1⟩

/-- A base TensorFlow namespace for concrete runs. -/
def tfBase0 : String → Option String := fun _ => none

/-- Environment in which `onnx.load` raises (missing input file). -/
def envLoadFail : Env := ⟨tfBase0, false, true, true, [], true, []⟩

/-- Environment in which every library call succeeds. -/
def envAllOk : Env :=
  ⟨tfBase0, true, true, true, [("saved_model.pb", [1, 2])], true, [0, 1, 2]⟩

/-- Environment in which `converter.convert` raises. -/
def envConvertFail : Env :=
  ⟨tfBase0, true, true, true, [("saved_model.pb", [1, 2])], false, [0, 1, 2]⟩

/-- An empty initial filesystem. -/
def fsEmpty : FSState := ⟨none, none⟩

/-- An initial filesystem with a stale export directory and a previous
output artifact. -/
def fsStale : FSState := ⟨some [("stale.txt", [9])], some [7, 7]⟩

/-- Test for whether an event is a namespace attribute assignment. -/
def isSetAttrE : Event → Bool
  | .setAttr _ _ => true
  | _ => false

/-- The TensorFlow namespace after a run is always exactly the base
namespace with the shim applied, whatever else the run does. -/
theorem run_tfAttrs (env : Env) (fs0 : FSState) :
    (run env fs0).tfAttrs = applyShim env.tfBase := by
  cases hl : env.loadOk <;> cases hp : env.prepareOk <;>
    cases he : env.exportOk <;> cases hc : env.convertOk <;>
      simp [run, hl, hp, he, hc]

/-- C1: if the loader's load call raises, the run terminates before the
export stage: the filesystem (intermediate directory and output path) is
untouched, no rmtree, export, convert or output-write call is made, and
the exit status is nonzero. -/
theorem C1_load_failure_aborts (env : Env) (fs0 : FSState)
    (h : env.loadOk = false) :
    (run env fs0).fs = fs0 ∧
    Event.rmtreeCall exportDirPath ∉ (run env fs0).trace ∧
    Event.exportCall exportDirPath ∉ (run env fs0).trace ∧
    Event.convertCall ∉ (run env fs0).trace ∧
    Event.openWrite outPath ∉ (run env fs0).trace ∧
    (run env fs0).exitCode ≠ 0 := by
  simp [run, h, shimTrace, shimAssignments]

theorem C1_witness :
    envLoadFail.loadOk = false ∧
    ((run envLoadFail fsStale).fs = fsStale ∧
      Event.rmtreeCall exportDirPath ∉ (run envLoadFail fsStale).trace ∧
      Event.exportCall exportDirPath ∉ (run envLoadFail fsStale).trace ∧
      Event.convertCall ∉ (run envLoadFail fsStale).trace ∧
      Event.openWrite outPath ∉ (run envLoadFail fsStale).trace ∧
      (run envLoadFail fsStale).exitCode ≠ 0) :=
  ⟨rfl, C1_load_failure_aborts envLoadFail fsStale rfl⟩

/-- C2 counterexample: the shim block performs five assignments, on five
distinct top-level names, not four as the claim states. -/
theorem C2_not_four_names :
    shimAssignments.map Prod.fst = ["ceil", "floor", "abs", "sin", "cos"] ∧
    ¬((shimAssignments.map Prod.fst).length = 4) := by decide

/-- C2 (amended): the compatibility shim rebinds exactly five
numeric-operation names (ceiling, floor, absolute-value, sine, cosine) on
the numerical library's top-level namespace, each to its math-submodule
equivalent, so after the shim each of those top-level names equals the
corresponding math-submodule function. -/
theorem C2_shim_rebinds_five (env : Env) (fs0 : FSState) :
    shimAssignments.length = 5 ∧
    (run env fs0).tfAttrs "ceil" = some (tfMath "ceil") ∧
    (run env fs0).tfAttrs "floor" = some (tfMath "floor") ∧
    (run env fs0).tfAttrs "abs" = some (tfMath "abs") ∧
    (run env fs0).tfAttrs "sin" = some (tfMath "sin") ∧
    (run env fs0).tfAttrs "cos" = some (tfMath "cos") := by
  have h := run_tfAttrs env fs0
  refine ⟨rfl, ?_, ?_, ?_, ?_, ?_⟩ <;> rw [h] <;> rfl

/-- C3: in a run that reaches the export stage, a pre-existing directory
at the intermediate export path is recursively deleted (trace position 9)
strictly before the export call (trace position 10), and the final
directory contents are exactly the freshly exported bundle, so no file
absent from the fresh bundle survives; when no directory pre-exists, no
deletion is ever performed. -/
theorem C3_stale_dir_replaced (env : Env) (fs0 : FSState) :
    ((fs0.exportDir.isSome = true ∧ env.loadOk = true ∧
        env.prepareOk = true ∧ env.exportOk = true) →
      (run env fs0).trace[9]? = some (Event.rmtreeCall exportDirPath) ∧
      (run env fs0).trace[10]? = some (Event.exportCall exportDirPath) ∧
      (run env fs0).fs.exportDir = some env.exportBundle ∧
      (∀ f, f ∉ env.exportBundle → f ∉ ((run env fs0).fs.exportDir.getD []))) ∧
    (fs0.exportDir = none →
      Event.rmtreeCall exportDirPath ∉ (run env fs0).trace) := by
  constructor
  · rintro ⟨hd, hl, hp, he⟩
    cases hc : env.convertOk <;>
      simp [run, hl, hp, he, hc, hd, shimTrace, shimAssignments]
  · intro hd
    cases hl : env.loadOk <;> cases hp : env.prepareOk <;>
      cases he : env.exportOk <;> cases hc : env.convertOk <;>
        simp [run, hl, hp, he, hc, hd, shimTrace, shimAssignments]

theorem C3_witness :
    (run envAllOk fsStale).trace[9]? = some (Event.rmtreeCall exportDirPath) ∧
    (run envAllOk fsStale).fs.exportDir = some envAllOk.exportBundle ∧
    ("stale.txt", ([9] : Bytes)) ∉ ((run envAllOk fsStale).fs.exportDir.getD []) :=
  ⟨((C3_stale_dir_replaced envAllOk fsStale).1 ⟨rfl, rfl, rfl, rfl⟩).1,
   ((C3_stale_dir_replaced envAllOk fsStale).1 ⟨rfl, rfl, rfl, rfl⟩).2.2.1,
   ((C3_stale_dir_replaced envAllOk fsStale).1 ⟨rfl, rfl, rfl, rfl⟩).2.2.2
     ("stale.txt", [9]) (by decide)⟩

/-- C4: every run starts with the five namespace assignments followed by
the translator-library import and only then the load call (the first seven
trace events), and no later event of any run is a namespace assignment:
the shim happens exactly once, at startup, before the translator is
loaded. -/
theorem C4_shim_once_at_startup (env : Env) (fs0 : FSState) :
    (run env fs0).trace.take 7 =
      shimTrace ++ [Event.importOnnxTf, Event.loadCall inputPath] ∧
    (run env fs0).trace.filter isSetAttrE = shimTrace := by
  cases hl : env.loadOk <;> cases hp : env.prepareOk <;>
    cases he : env.exportOk <;> cases hc : env.convertOk <;>
      cases hd : fs0.exportDir <;>
        simp [run, hl, hp, he, hc, hd, shimTrace, shimAssignments,
          isSetAttrE, successMsg, List.filter]

/-- C5: when every stage succeeds, the run writes exactly the bytes
returned by the conversion call to the fixed output path — whatever file
was there before — and exits with status 0. -/
theorem C5_success_writes_artifact (env : Env) (fs0 : FSState)
    (hl : env.loadOk = true) (hp : env.prepareOk = true)
    (he : env.exportOk = true) (hc : env.convertOk = true) :
    (run env fs0).fs.outputFile = some env.convertBytes ∧
    Event.openWrite outPath ∈ (run env fs0).trace ∧
    (run env fs0).exitCode = 0 := by
  cases hd : fs0.exportDir <;>
    simp [run, hl, hp, he, hc, hd, shimTrace, shimAssignments]

theorem C5_witness :
    fsStale.outputFile = some [7, 7] ∧
    (run envAllOk fsStale).fs.outputFile = some envAllOk.convertBytes ∧
    Event.openWrite outPath ∈ (run envAllOk fsStale).trace ∧
    (run envAllOk fsStale).exitCode = 0 :=
  ⟨rfl, C5_success_writes_artifact envAllOk fsStale rfl rfl rfl rfl⟩

/-- C6: the run exits 0 exactly when all four stages succeed, in which
case the confirmation message — the fixed text followed by the output
path — is printed; any failure exits with the nonzero status 1, and there
is no retry (a failed run makes no further calls, which the other
theorems record). -/
theorem C6_exit_and_confirmation (env : Env) (fs0 : FSState) :
    successMsg = "✅ Wrote TFLite model to " ++ outPath ∧
    ((run env fs0).exitCode = 0 ↔
      (env.loadOk = true ∧ env.prepareOk = true ∧
        env.exportOk = true ∧ env.convertOk = true)) ∧
    ((run env fs0).exitCode = 0 →
      Event.printMsg successMsg ∈ (run env fs0).trace) ∧
    ((run env fs0).exitCode ≠ 0 → (run env fs0).exitCode = 1) := by
  refine ⟨rfl, ?_⟩
  cases hl : env.loadOk <;> cases hp : env.prepareOk <;>
    cases he : env.exportOk <;> cases hc : env.convertOk <;>
      cases hd : fs0.exportDir <;>
        simp [run, hl, hp, he, hc, hd, shimTrace, shimAssignments]

theorem C6_witness :
    Event.printMsg successMsg ∈ (run envAllOk fsEmpty).trace :=
  (C6_exit_and_confirmation envAllOk fsEmpty).2.2.1
    ((C6_exit_and_confirmation envAllOk fsEmpty).2.1.mpr ⟨rfl, rfl, rfl, rfl⟩)

/-- C7: every prepare call any run makes carries the strict flag false
(tolerant mode), and whenever the load succeeds such a call is actually
made. -/
theorem C7_prepare_nonstrict (env : Env) (fs0 : FSState) :
    (∀ b, Event.prepareCall b ∈ (run env fs0).trace → b = false) ∧
    (env.loadOk = true → Event.prepareCall false ∈ (run env fs0).trace) := by
  cases hl : env.loadOk <;> cases hp : env.prepareOk <;>
    cases he : env.exportOk <;> cases hc : env.convertOk <;>
      cases hd : fs0.exportDir <;>
        simp [run, hl, hp, he, hc, hd, shimTrace, shimAssignments]

theorem C7_witness :
    false = false ∧ Event.prepareCall false ∈ (run envAllOk fsEmpty).trace :=
  ⟨(C7_prepare_nonstrict envAllOk fsEmpty).1 false
      ((C7_prepare_nonstrict envAllOk fsEmpty).2 rfl),
   (C7_prepare_nonstrict envAllOk fsEmpty).2 rfl⟩

/-- C8: running the pipeline twice on the same input (same library
behaviour) writes the same bytes both times, and the second run deletes
the stale intermediate directory left by the first before exporting, so
its final directory contents are exactly the fresh bundle, never a merge
with the stale version. -/
theorem C8_second_run_replaces (env : Env) (fs0 : FSState)
    (hl : env.loadOk = true) (hp : env.prepareOk = true)
    (he : env.exportOk = true) (hc : env.convertOk = true) :
    (run env (run env fs0).fs).fs.outputFile = (run env fs0).fs.outputFile ∧
    (run env fs0).fs.outputFile = some env.convertBytes ∧
    Event.rmtreeCall exportDirPath ∈ (run env (run env fs0).fs).trace ∧
    (run env (run env fs0).fs).fs.exportDir = some env.exportBundle := by
  cases hd : fs0.exportDir <;>
    simp [run, hl, hp, he, hc, hd, shimTrace, shimAssignments]

theorem C8_witness :
    (run envAllOk (run envAllOk fsEmpty).fs).fs.outputFile =
      (run envAllOk fsEmpty).fs.outputFile ∧
    (run envAllOk fsEmpty).fs.outputFile = some envAllOk.convertBytes ∧
    Event.rmtreeCall exportDirPath ∈ (run envAllOk (run envAllOk fsEmpty).fs).trace ∧
    (run envAllOk (run envAllOk fsEmpty).fs).fs.exportDir = some envAllOk.exportBundle :=
  C8_second_run_replaces envAllOk fsEmpty rfl rfl rfl rfl

/-- C9: if the quantizing conversion call raises, the output path is
never opened for writing and whatever artifact was there before the run
is left unchanged. -/
theorem C9_convert_failure_preserves_output (env : Env) (fs0 : FSState)
    (hc : env.convertOk = false) :
    (run env fs0).fs.outputFile = fs0.outputFile ∧
    Event.openWrite outPath ∉ (run env fs0).trace := by
  cases hl : env.loadOk <;> cases hp : env.prepareOk <;>
    cases he : env.exportOk <;> cases hd : fs0.exportDir <;>
      simp [run, hl, hp, he, hc, hd, shimTrace, shimAssignments]

theorem C9_witness :
    fsStale.outputFile = some [7, 7] ∧
    ((run envConvertFail fsStale).fs.outputFile = fsStale.outputFile ∧
      Event.openWrite outPath ∉ (run envConvertFail fsStale).trace) :=
  ⟨rfl, C9_convert_failure_preserves_output envConvertFail fsStale rfl⟩

/-- C10: the shim's effect on the numerical library's namespace is
confined to the five names ceil, floor, abs, sin, cos: every other
attribute keeps its pre-shim binding after any run, and the shim block
consists of exactly those five assignments. -/
theorem C10_shim_frame (env : Env) (fs0 : FSState) (n : String)
    (h1 : n ≠ "ceil") (h2 : n ≠ "floor") (h3 : n ≠ "abs")
    (h4 : n ≠ "sin") (h5 : n ≠ "cos") :
    (run env fs0).tfAttrs n = env.tfBase n ∧
    shimAssignments.map Prod.fst = ["ceil", "floor", "abs", "sin", "cos"] := by
  refine ⟨?_, rfl⟩
  rw [run_tfAttrs]
  simp [applyShim, shimAssignments, setAttrF, h1, h2, h3, h4, h5]

theorem C10_witness :
    (run envAllOk fsEmpty).tfAttrs "exp" = envAllOk.tfBase "exp" ∧
    shimAssignments.map Prod.fst = ["ceil", "floor", "abs", "sin", "cos"] :=
  C10_shim_frame envAllOk fsEmpty "exp" (by decide) (by decide) (by decide)
    (by decide) (by decide)

end ConvertOnnxToTflite
